import Mathlib

/-!
Verification of the libtorrent DHT specification against the repository.

The repository sources contain the `pe_crypto.hpp` header (peer-wire RC4
encryption, out of scope per the spec) and the DHT test suite
(`test_dht.cpp`).  The DHT implementation itself (routing table, node
facade, item store, traversal engine, node-id derivation, ed25519 item
signing) is not among the sources; following the spec, those components
are modelled here from the spec's own description (sections 3, 4, 6, 8
and 9) and from the observable behaviour its tests pin down.  Every such
definition carries a doc comment starting with `Modelled from the spec:`.

Bytes are `Nat` values below 256, byte strings are `List Nat`.
-/

set_option maxRecDepth 10000

/- ## Byte-string helpers -/

/-- Big-endian interpretation of a byte string as a natural number. -/
def bytesToNatBE (bs : List Nat) : Nat :=
  bs.foldl (fun a b => a * 256 + b) 0

/-- Little-endian interpretation of a byte string as a natural number. -/
def bytesToNatLE (bs : List Nat) : Nat :=
  bs.foldr (fun b a => a * 256 + b) 0

/-- The `w` low-order bytes of `v`, most significant first. -/
def natToBEBytes (w : Nat) (v : Nat) : List Nat :=
  match w with
  | 0 => []
  | n + 1 => natToBEBytes n (v / 256) ++ [v % 256]

/-- The `w` low-order bytes of `v`, least significant first. -/
def natToLEBytes (w : Nat) (v : Nat) : List Nat :=
  match w with
  | 0 => []
  | n + 1 => v % 256 :: natToLEBytes n (v / 256)

/-- Splits a list into consecutive chunks of `n` elements (fuelled). -/
def chunksAux (fuel n : Nat) (l : List Nat) : List (List Nat) :=
  match fuel with
  | 0 => []
  | f + 1 => if l.isEmpty then [] else l.take n :: chunksAux f n (l.drop n)

/-- Splits a byte string into consecutive chunks of `n` bytes. -/
def chunks (n : Nat) (l : List Nat) : List (List Nat) :=
  chunksAux (l.length + 1) n l

/-- ASCII bytes of a string (the file only uses ASCII literals). -/
def strBytes (s : String) : List Nat :=
  s.data.map Char.toNat

/-- Decimal digits of `n`, most significant first (fuelled). -/
def natDecimalAux (fuel n : Nat) : List Nat :=
  match fuel with
  | 0 => []
  | f + 1 => if n < 10 then [n] else natDecimalAux f (n / 10) ++ [n % 10]

/-- ASCII decimal representation of `n`. -/
def asciiDecimal (n : Nat) : List Nat :=
  (natDecimalAux (n + 1) n).map (· + 48)

/- ## SHA-1

Modelled from the spec: the SHA-1 hasher is collaborator (d) of section 1;
it is realised here as the standard FIPS 180 SHA-1 so the concrete target
vectors of the tests can be checked. -/

/-- Left rotation of a 32-bit word. -/
def rotl32 (n x : Nat) : Nat :=
  ((x <<< n) ||| (x >>> (32 - n))) % 4294967296

/-- SHA-1 round constants. -/
def sha1K (i : Nat) : Nat :=
  if i < 20 then 0x5A827999
  else if i < 40 then 0x6ED9EBA1
  else if i < 60 then 0x8F1BBCDC
  else 0xCA62C1D6

/-- SHA-1 round functions. -/
def sha1F (i b c d : Nat) : Nat :=
  if i < 20 then (b &&& c) ||| ((b ^^^ 0xFFFFFFFF) &&& d)
  else if i < 40 then b ^^^ c ^^^ d
  else if i < 60 then (b &&& c) ||| (b &&& d) ||| (c &&& d)
  else b ^^^ c ^^^ d

/-- Extends the 16-word block to the 80-word message schedule. -/
def sha1ExtendAux (fuel : Nat) (ws : List Nat) : List Nat :=
  match fuel with
  | 0 => ws
  | f + 1 =>
    let n := ws.length
    let w := rotl32 1 (ws.getD (n - 3) 0 ^^^ ws.getD (n - 8) 0 ^^^
      ws.getD (n - 14) 0 ^^^ ws.getD (n - 16) 0)
    sha1ExtendAux f (ws ++ [w])

/-- SHA-1 compression of one 16-word block into the running state. -/
def sha1Compress (h : List Nat) (block : List Nat) : List Nat :=
  let ws := sha1ExtendAux 64 block
  let step := fun (st : Nat × Nat × Nat × Nat × Nat) (i : Nat) =>
    let (a, b, c, d, e) := st
    let t := (rotl32 5 a + sha1F i b c d + e + sha1K i + ws.getD i 0) % 4294967296
    (t, a, rotl32 30 b, c, d)
  let s0 := (h.getD 0 0, h.getD 1 0, h.getD 2 0, h.getD 3 0, h.getD 4 0)
  let (a, b, c, d, e) := (List.range 80).foldl step s0
  [(h.getD 0 0 + a) % 4294967296, (h.getD 1 0 + b) % 4294967296,
   (h.getD 2 0 + c) % 4294967296, (h.getD 3 0 + d) % 4294967296,
   (h.getD 4 0 + e) % 4294967296]

/-- SHA-1 padding: a 0x80 byte, zeros, then the 64-bit big-endian bit count. -/
def sha1Pad (msg : List Nat) : List Nat :=
  let l := msg.length
  msg ++ [0x80] ++ List.replicate ((119 - l % 64) % 64) 0 ++ natToBEBytes 8 (l * 8)

/-- SHA-1 digest (20 bytes) of a byte string. -/
def sha1 (msg : List Nat) : List Nat :=
  let blocks := chunks 64 (sha1Pad msg)
  let toWords := fun (b : List Nat) => (chunks 4 b).map bytesToNatBE
  let h := blocks.foldl (fun h b => sha1Compress h (toWords b))
    [0x67452301, 0xEFCDAB89, 0x98BADCFE, 0x10325476, 0xC3D2E1F0]
  (h.map (natToBEBytes 4)).flatten

/- ## CRC32-C (Castagnoli)

Modelled from the spec: BEP 42 ("Binds node ID to IP via a hash of
(IP masked, nonce)") uses the crc32c checksum; realised here bitwise with
the reflected polynomial 0x82F63B78. -/

/-- One bit step of the reflected crc32c division. -/
def crc32cBitStep (c : Nat) : Nat :=
  if c % 2 = 1 then (c >>> 1) ^^^ 0x82F63B78 else c >>> 1

/-- Folds one byte into the crc32c accumulator. -/
def crc32cByte (c b : Nat) : Nat :=
  crc32cBitStep (crc32cBitStep (crc32cBitStep (crc32cBitStep
    (crc32cBitStep (crc32cBitStep (crc32cBitStep (crc32cBitStep (c ^^^ b))))))))

/-- The crc32c checksum of a byte string. -/
def crc32c (bs : List Nat) : Nat :=
  (bs.foldl crc32cByte 0xFFFFFFFF) ^^^ 0xFFFFFFFF

/- ## SHA-512

Modelled from the spec: the Ed25519 signer (collaborator (e) of section 1)
hashes with SHA-512 internally; realised here as the standard FIPS 180
SHA-512 so the BEP-44 signature vector of the tests can be checked. -/

/-- Right rotation of a 64-bit word. -/
def rotr64 (n x : Nat) : Nat :=
  ((x >>> n) ||| (x <<< (64 - n))) % 18446744073709551616

/-- SHA-512 round constants (fractional cube roots of the first 80 primes). -/
def sha512K : List Nat :=
  [4794697086780616226, 8158064640168781261, 13096744586834688815, 16840607885511220156,
  4131703408338449720, 6480981068601479193, 10538285296894168987, 12329834152419229976,
  15566598209576043074, 1334009975649890238, 2608012711638119052, 6128411473006802146,
  8268148722764581231, 9286055187155687089, 11230858885718282805, 13951009754708518548,
  16472876342353939154, 17275323862435702243, 1135362057144423861, 2597628984639134821,
  3308224258029322869, 5365058923640841347, 6679025012923562964, 8573033837759648693,
  10970295158949994411, 12119686244451234320, 12683024718118986047, 13788192230050041572,
  14330467153632333762, 15395433587784984357, 489312712824947311, 1452737877330783856,
  2861767655752347644, 3322285676063803686, 5560940570517711597, 5996557281743188959,
  7280758554555802590, 8532644243296465576, 9350256976987008742, 10552545826968843579,
  11727347734174303076, 12113106623233404929, 14000437183269869457, 14369950271660146224,
  15101387698204529176, 15463397548674623760, 17586052441742319658, 1182934255886127544,
  1847814050463011016, 2177327727835720531, 2830643537854262169, 3796741975233480872,
  4115178125766777443, 5681478168544905931, 6601373596472566643, 7507060721942968483,
  8399075790359081724, 8693463985226723168, 9568029438360202098, 10144078919501101548,
  10430055236837252648, 11840083180663258601, 13761210420658862357, 14299343276471374635,
  14566680578165727644, 15097957966210449927, 16922976911328602910, 17689382322260857208,
  500013540394364858, 748580250866718886, 1242879168328830382, 1977374033974150939,
  2944078676154940804, 3659926193048069267, 4368137639120453308, 4836135668995329356,
  5532061633213252278, 6448918945643986474, 6902733635092675308, 7801388544844847127]

/-- SHA-512 initial state (fractional square roots of the first 8 primes). -/
def sha512H0 : List Nat :=
  [7640891576956012808, 13503953896175478587, 4354685564936845355, 11912009170470909681,
  5840696475078001361, 11170449401992604703, 2270897969802886507, 6620516959819538809]

/-- SHA-512 small sigma 0. -/
def sha512s0 (x : Nat) : Nat := rotr64 1 x ^^^ rotr64 8 x ^^^ (x >>> 7)

/-- SHA-512 small sigma 1. -/
def sha512s1 (x : Nat) : Nat := rotr64 19 x ^^^ rotr64 61 x ^^^ (x >>> 6)

/-- SHA-512 big sigma 0. -/
def sha512S0 (x : Nat) : Nat := rotr64 28 x ^^^ rotr64 34 x ^^^ rotr64 39 x

/-- SHA-512 big sigma 1. -/
def sha512S1 (x : Nat) : Nat := rotr64 14 x ^^^ rotr64 18 x ^^^ rotr64 41 x

/-- Extends the 16-word block to the 80-word SHA-512 message schedule. -/
def sha512ExtendAux (fuel : Nat) (ws : List Nat) : List Nat :=
  match fuel with
  | 0 => ws
  | f + 1 =>
    let n := ws.length
    let w := (ws.getD (n - 16) 0 + sha512s0 (ws.getD (n - 15) 0) +
      ws.getD (n - 7) 0 + sha512s1 (ws.getD (n - 2) 0)) % 18446744073709551616
    sha512ExtendAux f (ws ++ [w])

/-- SHA-512 compression of one 16-word block into the running state. -/
def sha512Compress (h : List Nat) (block : List Nat) : List Nat :=
  let m := 18446744073709551616
  let ws := sha512ExtendAux 64 block
  let step := fun (st : List Nat) (i : Nat) =>
    let a := st.getD 0 0; let b := st.getD 1 0; let c := st.getD 2 0; let d := st.getD 3 0
    let e := st.getD 4 0; let f := st.getD 5 0; let g := st.getD 6 0; let hh := st.getD 7 0
    let ch := (e &&& f) ^^^ ((e ^^^ 0xFFFFFFFFFFFFFFFF) &&& g)
    let maj := (a &&& b) ^^^ (a &&& c) ^^^ (b &&& c)
    let t1 := (hh + sha512S1 e + ch + sha512K.getD i 0 + ws.getD i 0) % m
    let t2 := (sha512S0 a + maj) % m
    [(t1 + t2) % m, a, b, c, (d + t1) % m, e, f, g]
  let hs := (List.range 80).foldl step h
  (List.range 8).map (fun i => (h.getD i 0 + hs.getD i 0) % m)

/-- SHA-512 padding: a 0x80 byte, zeros, then a 128-bit big-endian bit count. -/
def sha512Pad (msg : List Nat) : List Nat :=
  let l := msg.length
  msg ++ [0x80] ++ List.replicate ((239 - l % 128) % 128) 0 ++ natToBEBytes 16 (l * 8)

/-- SHA-512 digest (64 bytes) of a byte string. -/
def sha512 (msg : List Nat) : List Nat :=
  let blocks := chunks 128 (sha512Pad msg)
  let toWords := fun (b : List Nat) => (chunks 8 b).map bytesToNatBE
  let h := blocks.foldl (fun h b => sha512Compress h (toWords b)) sha512H0
  (h.map (natToBEBytes 8)).flatten

/- ## Ed25519 signing

Modelled from the spec: the Ed25519 signer/verifier is collaborator (e) of
section 1 ("an Ed25519 signer/verifier") and the repository implements it in
`kademlia/ed25519` (not among the sources).  It is realised here as the
standard Ed25519 signing algorithm over the twisted Edwards curve
-x^2 + y^2 = 1 + d x^2 y^2 mod 2^255-19, operating on the 64-byte expanded
secret key the tests use (clamped scalar followed by the nonce key), so that
the BEP-44 signature vector can be checked. -/

/-- The field prime 2^255 - 19. -/
def p25519 : Nat := 57896044618658097711785492504343953926634992332820282019728792003956564819949

/-- The order of the base-point subgroup. -/
def l25519 : Nat := 7237005577332262213973186563042994240857116359379907606001950938285454250989

/-- The curve constant d = -121665/121666 mod p. -/
def d25519 : Nat := 37095705934669439343138083508754565189542113879843219016388785533085940283555

/-- Modular exponentiation by binary splitting of the exponent (fuelled). -/
def powModAux (fuel : Nat) (x e m : Nat) : Nat :=
  match fuel with
  | 0 => 1 % m
  | f + 1 =>
    if e = 0 then 1 % m
    else
      let h := powModAux f x (e / 2) m
      if e % 2 = 1 then h * h % m * x % m else h * h % m

/-- Modular exponentiation `x ^ e mod m`. -/
def powMod (x e m : Nat) : Nat := powModAux 320 x e m

/-- Modular inverse in the field, via Fermat's little theorem. -/
def invMod (x : Nat) : Nat := powMod x (p25519 - 2) p25519

/-- A curve point in extended homogeneous coordinates (X : Y : Z : T). -/
structure EPoint where
  X : Nat
  Y : Nat
  Z : Nat
  T : Nat
deriving DecidableEq

/-- Subtraction mod p for already-reduced operands. -/
def subP (a b : Nat) : Nat := (a + p25519 - b) % p25519

/-- Unified point addition on -x^2+y^2 = 1+dx^2y^2 (add-2008-hwcd-3). -/
def edAdd (P Q : EPoint) : EPoint :=
  let p := p25519
  let A := subP P.Y P.X * subP Q.Y Q.X % p
  let B := (P.Y + P.X) % p * ((Q.Y + Q.X) % p) % p
  let C := P.T * (2 * d25519 % p) % p * Q.T % p
  let D := P.Z * 2 % p * Q.Z % p
  let E := subP B A
  let F := subP D C
  let G := (D + C) % p
  let H := (B + A) % p
  ⟨E * F % p, G * H % p, F * G % p, E * H % p⟩

/-- The neutral element of the curve group. -/
def edZero : EPoint := ⟨0, 1, 1, 0⟩

/-- Double-and-add scalar multiplication (fuelled on the bit length). -/
def scalarMulAux (fuel e : Nat) (P acc : EPoint) : EPoint :=
  match fuel with
  | 0 => acc
  | f + 1 =>
    if e = 0 then acc
    else scalarMulAux f (e / 2) (edAdd P P)
      (if e % 2 = 1 then edAdd acc P else acc)

/-- Scalar multiplication `e * P` on the curve. -/
def scalarMul (e : Nat) (P : EPoint) : EPoint := scalarMulAux 256 e P edZero

/-- The standard Ed25519 base point (x, 4/5) with x even. -/
def basePoint : EPoint :=
  let x := 15112221349535400772501151409588531511454012693041857206046113283949847762202
  let y := 46316835694926478169428394003475163141307993866256225615783033603165251855960
  ⟨x, y, 1, x * y % p25519⟩

/-- Compressed 32-byte encoding of a point: y with the parity of x in the top bit. -/
def encodePoint (P : EPoint) : List Nat :=
  let zi := invMod P.Z
  let x := P.X * zi % p25519
  let y := P.Y * zi % p25519
  natToLEBytes 32 (y + ((x % 2) <<< 255))

/-- Ed25519 signing with a 64-byte expanded secret key `sk` (clamped scalar
`a` in the first 32 bytes, nonce key in the last 32) and public key `pk`:
`R = (H(nonce ‖ m) mod l) B`, `S = r + H(R ‖ pk ‖ m) a mod l`. -/
def ed25519_sign (msg sk pk : List Nat) : List Nat :=
  let r := bytesToNatLE (sha512 (sk.drop 32 ++ msg)) % l25519
  let Renc := encodePoint (scalarMul r basePoint)
  let h := bytesToNatLE (sha512 (Renc ++ pk ++ msg)) % l25519
  let a := bytesToNatLE (sk.take 32)
  Renc ++ natToLEBytes 32 ((r + h * a) % l25519)

/-- The BEP-44 test public key (from `get_test_keypair` in the test suite). -/
def testPk : List Nat :=
  [119, 255, 132, 144, 90, 145, 147, 99, 103, 192, 19, 96, 128, 49, 4, 249, 36, 50,
   252, 217, 4, 164, 53, 17, 135, 109, 245, 205, 243, 231, 229, 72]

/-- The BEP-44 test secret key (64-byte expanded form). -/
def testSk : List Nat :=
  [224, 109, 49, 131, 209, 65, 89, 34, 132, 51, 237, 89, 146, 33, 184, 11, 208, 165,
   206, 131, 82, 228, 189, 240, 38, 47, 118, 120, 110, 241, 199, 77, 183, 231, 169,
   254, 162, 192, 235, 38, 157, 97, 227, 179, 142, 69, 10, 34, 231, 84, 148, 26, 199,
   132, 121, 214, 197, 78, 31, 175, 96, 55, 136, 29]

/- ## BEP-44 canonical signing string and target IDs

Modelled from the spec: section 3, "Signature covers the bencoded
concatenation of `salt` (if present), `seq`, and raw bencoded value, per
BEP 44", and "Immutable item target = SHA-1(bencoded value); Mutable item
target = SHA-1(public_key ‖ salt)". -/

/-- The canonical byte string a mutable item's signature covers:
`4:salt<len>:<salt>` when the salt is non-empty, then `3:seqi<seq>e1:v`
followed by the already-bencoded value. -/
def canonicalString (salt : List Nat) (seq : Nat) (v : List Nat) : List Nat :=
  (if salt.isEmpty then [] else
    strBytes "4:salt" ++ asciiDecimal salt.length ++ strBytes ":" ++ salt)
  ++ strBytes "3:seqi" ++ asciiDecimal seq ++ strBytes "e1:v" ++ v

/-- Target ID of an immutable item: SHA-1 of the bencoded value. -/
def item_target_id (v : List Nat) : List Nat := sha1 v

/-- Target ID of a mutable item: SHA-1 of the public key followed by the salt. -/
def item_target_id_mutable (salt pk : List Nat) : List Nat := sha1 (pk ++ salt)

/-- Concrete `sign_mutable_item`: signs the canonical string with Ed25519.
Modelled from the spec (the repository's `sign_mutable_item` in
`kademlia/item.cpp` is not among the sources). -/
def sign_mutable_item_ed25519 (v salt : List Nat) (seq : Nat) (pk sk : List Nat) :
    List Nat :=
  ed25519_sign (canonicalString salt seq v) sk pk

/- ## BEP-42 node-id derivation and verification

Modelled from the spec: "BEP 42 — Binds node ID to IP via a hash of
(IP masked, nonce)" and "`id` must match the BEP-42 derivation from
`endpoint.ip` in its first 21 bits and its last byte (the r nonce)"
(section 3).  The derivation (the repository's `generate_id_impl` in
`kademlia/node_id.cpp`, not among the sources) masks the IPv4 address with
03.0f.3f.ff, folds the low 3 bits of the nonce into the top of the first
octet, takes the crc32c checksum, and forms the node ID from the top 21
bits of the checksum, internal random bytes (passed here explicitly as
`rand3` and `mid`), and the nonce as the last byte. -/

/-- The BEP-42 IPv4 mask. -/
def v4mask : List Nat := [0x03, 0x0f, 0x3f, 0xff]

/-- BEP-42 node-id derivation from an IPv4 address and nonce `r`; `rand3`
supplies the random low 3 bits of the third byte and `mid` the 16 random
middle bytes. -/
def generate_id_impl (ip : List Nat) (r rand3 : Nat) (mid : List Nat) : List Nat :=
  let b := List.zipWith (fun x y => x &&& y) ip v4mask
  let b := match b with
    | b0 :: rest => (b0 ||| ((r &&& 7) <<< 5)) :: rest
    | [] => []
  let c := crc32c b
  ((c >>> 24) &&& 255) :: ((c >>> 16) &&& 255) ::
    ((((c >>> 8) &&& 0xf8) ||| (rand3 &&& 7)) :: (mid ++ [r &&& 255]))

/-- BEP-42 check that a node ID matches its source IPv4 address in the
first 21 bits, with the last ID byte as the nonce. -/
def verify_id (nid ip : List Nat) : Bool :=
  let h := generate_id_impl ip (nid.getD 19 0) 0 (List.replicate 16 0)
  nid.getD 0 0 == h.getD 0 0 && nid.getD 1 0 == h.getD 1 0 &&
    (nid.getD 2 0 &&& 0xf8) == (h.getD 2 0 &&& 0xf8)

/- ## Routing table

Modelled from the spec: section 4.1, `node_seen(id, endpoint, rtt)` with its
numbered decision steps.  The bucket tree is modelled as a single bucket
(the claims below concern steps 1-6, which act within one bucket); the
replacement cache is not tracked. -/

/-- A transport endpoint: address bytes and port. -/
structure Endpoint where
  addr : List Nat
  port : Nat
deriving DecidableEq

/-- A routing-table entry. -/
structure NodeEntry where
  id : List Nat
  ep : Endpoint
  rtt : Nat
  timeoutCount : Nat
deriving DecidableEq

/-- Result space of `node_seen` (spec section 4.1; section 8 names the
no-hijack result simply `ignored`). -/
inductive SeenStatus
  | inserted
  | updated
  | ignored
  | ignoredBadId
  | ignoredIpConflict
  | movedToReplacement
deriving DecidableEq

/-- The settings `node_seen` consults (spec section 6). -/
structure DhtSettings where
  enforceNodeId : Bool
  restrictRoutingIps : Bool
  bucketSize : Nat
deriving DecidableEq

/-- The IP-diversity comparison: same /24 for v4 addresses. -/
def sameSubnet (a b : Endpoint) : Bool :=
  a.addr.take 3 == b.addr.take 3

/-- The `node_seen` operation of spec section 4.1:
1. reject IDs failing BEP-42 when enforcement is on;
2. same id and endpoint: reset `timeout_count`, update `rtt`;
3. id present under a different endpoint: ignore (no-hijack);
4. endpoint present under a different id: remove the old entry;
5. IP-diversity violation: ignore the new node;
6. room in the bucket: insert; otherwise the replacement cache. -/
def node_seen (s : DhtSettings) (t : List NodeEntry) (id : List Nat)
    (ep : Endpoint) (rtt : Nat) : List NodeEntry × SeenStatus :=
  if s.enforceNodeId && !(verify_id id ep.addr) then (t, .ignoredBadId)
  else
    match t.find? (fun e => e.id == id) with
    | some e =>
      if e.ep == ep then
        (t.map (fun e' => if e'.id == id then { e' with rtt := rtt, timeoutCount := 0 } else e'),
          .updated)
      else (t, .ignored)
    | none =>
      let t1 := t.filter (fun e => !(e.ep == ep))
      if s.restrictRoutingIps && t1.any (fun e => sameSubnet e.ep ep) then
        (t1, .ignoredIpConflict)
      else if t1.length < s.bucketSize then (t1 ++ [⟨id, ep, rtt, 0⟩], .inserted)
      else (t1, .movedToReplacement)

/- ## Inbound query handling under ID enforcement

Modelled from the spec: section 4.5 steps 2 and 4 — "If `enforce_node_id`
and sender's ID fails BEP-42 ⇒ reply `{203, "invalid node ID"}`, do NOT
insert into routing table", "Otherwise update the routing table via
`node_seen`".  Schema validation (step 1) and `read_only` (step 3) are not
exercised by the claims and are omitted; the per-kind response payload is
abstracted to the reply tag. -/

/-- A reply: a `y="r"` response or a `y="e"` error with code and message. -/
inductive Reply
  | response
  | err (code : Nat) (msg : String)
deriving DecidableEq

/-- Routing-table treatment of an inbound query's sender. -/
def handle_query (s : DhtSettings) (t : List NodeEntry) (senderId : List Nat)
    (src : Endpoint) (rtt : Nat) : Reply × List NodeEntry :=
  if s.enforceNodeId && !(verify_id senderId src.addr) then
    (.err 203 "invalid node ID", t)
  else (.response, (node_seen s t senderId src rtt).1)

/-- The BEP-42-valid test node ID `5fbfbff10c5d6a4ec8a88e4c6ab4c28b95eee401`
used by `test_id_enforcement` for source endpoint 124.31.75.21:1. -/
def testNid : List Nat :=
  [95, 191, 191, 241, 12, 93, 106, 78, 200, 168, 142, 76, 106, 180, 194, 139, 149, 238,
   228, 1]

/-- The same ID with its first byte overwritten with 0x18, which breaks the
BEP-42 binding. -/
def testNidBad : List Nat :=
  [24, 191, 191, 241, 12, 93, 106, 78, 200, 168, 142, 76, 106, 180, 194, 139, 149, 238,
   228, 1]

/- ## Mutable item storage: put and get handlers

Modelled from the spec: section 4.5 `put` ("reject if token invalid {203};
verify Ed25519 signature, on failure {206, invalid signature}; if stored
value exists: reject if seq < stored.seq ⇒ {302, lower seq}; if cas is
present and cas ≠ stored.seq ⇒ {301, CAS mismatch}; store and reply") and
`get` ("If a mutable item exists, return {v, k, sig, seq} and a write
token; if the requester supplied seq and the stored item's seq ≤
requester_seq, omit v/k/sig").  The store is the single slot at the item's
target `item_target_id_mutable(salt, k)`; the signature verifier is the
collaborator, passed in as `verifySig`. -/

/-- A stored mutable item (spec section 3). -/
structure MutableItem where
  value : List Nat
  key : List Nat
  sig : List Nat
  seq : Nat
  salt : List Nat
deriving DecidableEq

/-- Arguments of a mutable `put` message (spec section 4.5). -/
structure PutArgs where
  token : String
  value : List Nat
  key : List Nat
  sig : List Nat
  seq : Nat
  cas : Option Nat
  salt : List Nat
deriving DecidableEq

/-- The mutable `put` handler over the slot of one target. -/
def handle_put (verifySig : List Nat → List Nat → List Nat → Bool)
    (goodToken : String) (store : Option MutableItem) (a : PutArgs) :
    Reply × Option MutableItem :=
  if a.token ≠ goodToken then (.err 203 "invalid token", store)
  else if ¬ verifySig (canonicalString a.salt a.seq a.value) a.key a.sig then
    (.err 206 "invalid signature", store)
  else
    match store with
    | some it =>
      if a.seq < it.seq then (.err 302 "lower seq", store)
      else if (a.cas.map (fun c => c != it.seq)).getD false then
        (.err 301 "CAS mismatch", store)
      else (.response, some ⟨a.value, a.key, a.sig, a.seq, a.salt⟩)
    | none => (.response, some ⟨a.value, a.key, a.sig, a.seq, a.salt⟩)

/-- A mutable `get` response: the optional item payload plus the routing
material (token and closest nodes; the responder id is left implicit). -/
structure GetResponse where
  v : Option (List Nat)
  k : Option (List Nat)
  sig : Option (List Nat)
  seq : Option Nat
  token : String
  nodes : List NodeEntry
deriving DecidableEq

/-- The mutable `get` handler over the slot of one target. -/
def handle_get (store : Option MutableItem) (reqSeq : Option Nat)
    (token : String) (nodes : List NodeEntry) : GetResponse :=
  match store with
  | none => ⟨none, none, none, none, token, nodes⟩
  | some it =>
    if (reqSeq.map (fun s => decide (it.seq ≤ s))).getD false then
      ⟨none, none, none, none, token, nodes⟩
    else ⟨some it.value, some it.key, some it.sig, some it.seq, token, nodes⟩

/- ## Abstract signature scheme

Modelled from the spec: the Ed25519 signer/verifier is collaborator (e) of
section 1; for the universally quantified round-trip property of section 8
it is modelled as an idealized deterministic signature scheme whose
verifier accepts exactly the honest signature of the message under the
keypair. -/

/-- An idealized deterministic signature scheme. -/
structure SigScheme where
  sign : List Nat → List Nat → List Nat
  verify : List Nat → List Nat → List Nat → Bool
  keypair : List Nat → List Nat → Prop
  complete : ∀ m pk sk, keypair pk sk → verify m pk (sign m sk) = true
  sound : ∀ m pk sk s, keypair pk sk → verify m pk s = true → s = sign m sk

/-- The repository's `sign_mutable_item` over an abstract scheme: sign the
BEP-44 canonical string. -/
def sign_mutable_item (S : SigScheme) (v salt : List Nat) (seq : Nat)
    (sk : List Nat) : List Nat :=
  S.sign (canonicalString salt seq v) sk

/-- The repository's `verify_mutable_item` over an abstract scheme: verify
against the BEP-44 canonical string. -/
def verify_mutable_item (S : SigScheme) (v salt : List Nat) (seq : Nat)
    (pk sg : List Nat) : Bool :=
  S.verify (canonicalString salt seq v) pk sg

/-- Flips bit `b` of byte `i` of a byte string. -/
def flipBit (bs : List Nat) (i b : Nat) : List Nat :=
  bs.set i ((bs.getD i 0) ^^^ (1 <<< b))

/- ## Traversal engine

Modelled from the spec: section 4.4 (candidate set sorted by XOR distance
with states fresh / in-flight / responded / failed, branching factor α,
closest-K termination, completion action sending `put` to the up-to-K
responded nodes holding write tokens, `data_cb` invoked once on
termination) and section 9 ("once the closest-K are all responded, later
responses MUST NOT re-trigger completion ... transitioning the traversal
into a terminal state that ignores further responses").  Candidates are
identified by node ID; `doneCount` counts completion dispatches. -/

/-- XOR distance between two IDs, big-endian. -/
def xorDistance (a b : List Nat) : Nat :=
  bytesToNatBE (List.zipWith (fun x y => x ^^^ y) a b)

/-- Candidate states of spec section 4.4. -/
inductive CState
  | fresh
  | inFlight
  | responded
  | failed
deriving DecidableEq

/-- A traversal candidate. -/
structure Cand where
  id : List Nat
  dist : Nat
  state : CState
  token : Option String
deriving DecidableEq

/-- Traversal state for a `put_item` operation. -/
structure Traversal where
  target : List Nat
  cands : List Cand
  alpha : Nat
  k : Nat
  doneCount : Nat
  dataCbCount : Nat
  putsSent : Nat
  sentGets : List (List Nat)
deriving DecidableEq

/-- Stable insertion sort of candidates by distance to the target. -/
def insertByDist (c : Cand) : List Cand → List Cand
  | [] => [c]
  | x :: xs => if c.dist < x.dist then c :: x :: xs else x :: insertByDist c xs

/-- Candidates sorted by distance, closest first. -/
def sortCands (l : List Cand) : List Cand :=
  l.foldr insertByDist []

/-- Number of in-flight candidates. -/
def inFlightCount (st : Traversal) : Nat :=
  (st.cands.filter (fun c => c.state == .inFlight)).length

/-- The id of the next candidate a query should be sent to, if any: the
closest fresh candidate, provided fewer than α are in flight and it is
still competitive with the current K-best responded set. -/
def nextQuery (st : Traversal) : Option (List Nat) :=
  if inFlightCount st < st.alpha then
    match (sortCands (st.cands.filter (fun c => c.state == .fresh))).head? with
    | some c =>
      let resp := sortCands (st.cands.filter (fun c => c.state == .responded))
      if resp.length < st.k then some c.id
      else if c.dist < (resp.getD (st.k - 1) ⟨[], 0, .fresh, none⟩).dist then some c.id
      else none
    | none => none
  else none

/-- Marks the candidate with the given id in-flight. -/
def markInFlight (cands : List Cand) (id : List Nat) : List Cand :=
  cands.map (fun c => if c.id == id then { c with state := .inFlight } else c)

/-- Issues queries while the branching and closeness conditions allow
(spec section 4.4, fuelled by the candidate count). -/
def addRequestsAux : Nat → Traversal → Traversal
  | 0, st => st
  | f + 1, st =>
    match nextQuery st with
    | none => st
    | some id =>
      addRequestsAux f
        { st with cands := markInFlight st.cands id, sentGets := st.sentGets ++ [id] }

/-- Issues all queries currently allowed. -/
def addRequests (st : Traversal) : Traversal :=
  addRequestsAux (st.cands.length + 1) st

/-- Merges nodes learned from a response as fresh candidates, deduplicated
by id. -/
def mergeNodes (st : Traversal) (ns : List (List Nat)) : Traversal :=
  ns.foldl
    (fun s nid =>
      if s.cands.any (fun c => c.id == nid) then s
      else { s with cands := s.cands ++ [⟨nid, xorDistance s.target nid, .fresh, none⟩] })
    st

/-- Termination check of spec section 4.4: when the K closest non-failed
candidates have all responded, dispatch completion — invoke `data_cb` and
send a `put` to each of the up-to-K responded nodes holding a token. -/
def checkDone (st : Traversal) : Traversal :=
  let kbest := (sortCands (st.cands.filter (fun c => c.state != .failed))).take st.k
  if kbest.all (fun c => c.state == .responded) then
    { st with
      doneCount := st.doneCount + 1
      dataCbCount := st.dataCbCount + 1
      putsSent := st.putsSent + (kbest.filter (fun c => c.token.isSome)).length }
  else st

/-- A response event: responder id, nodes carried, write token. -/
structure RespEvent where
  rid : List Nat
  ns : List (List Nat)
  tok : String
deriving DecidableEq

/-- Response processing for an active traversal: mark the in-flight sender
responded, stash its token, merge its nodes, issue further queries, check
termination. -/
def respondActive (st : Traversal) (e : RespEvent) : Traversal :=
  match st.cands.find? (fun c => c.id == e.rid) with
  | none => st
  | some c =>
    if c.state == .inFlight then
      let st1 := { st with cands := st.cands.map (fun c' =>
        if c'.id == e.rid then { c' with state := .responded, token := some e.tok } else c') }
      checkDone (addRequests (mergeNodes st1 e.ns))
    else st

/-- Response processing: a completed traversal is terminal and ignores
further responses (spec section 9). -/
def respond (st : Traversal) (e : RespEvent) : Traversal :=
  if st.doneCount > 0 then st else respondActive st e

/-- Starts a traversal from routing-table seeds (spec section 4.4). -/
def startTraversal (target : List Nat) (seeds : List (List Nat)) (alpha k : Nat) :
    Traversal :=
  checkDone (addRequests
    { target := target
      cands := seeds.map (fun i => ⟨i, xorDistance target i, .fresh, none⟩)
      alpha := alpha, k := k
      doneCount := 0, dataCbCount := 0, putsSent := 0, sentGets := [] })

/- ## Compact node parsing

Modelled from the spec: section 6 gives the compact node formats (26 bytes
for v4, 38 for v6); the test `test_short_nodes` pins down that a `nodes`
byte string of invalid length is ignored entirely — no endpoint decoded
from it is contacted. -/

/-- Parses a compact node list of element size `sz` (26 for v4, 38 for
v6); a byte string whose length is not a multiple of `sz` is rejected. -/
def parse_nodes (sz : Nat) (bs : List Nat) : Option (List (List Nat × Endpoint)) :=
  if bs.length % sz ≠ 0 then none
  else some ((chunks sz bs).map (fun c =>
    (c.take 20, ⟨(c.drop 20).take (sz - 22), bytesToNatBE (c.drop (sz - 2))⟩)))

/-- Response processing when the nodes payload arrives as raw bytes: nodes
are merged only if the compact list parses. -/
def respondRaw (st : Traversal) (rid : List Nat) (rawNodes : List Nat) (tok : String) :
    Traversal :=
  respond st ⟨rid, (((parse_nodes 26 rawNodes).getD []).map Prod.fst), tok⟩

/- ## Concrete scenarios -/

/-- The target of the `traversal_done` regression scenario: SHA-1 of the
test public key, as in the test. -/
def c1Target : List Nat := sha1 testPk

/-- Node `i` of the `traversal_done` scenario: the target with its `i`-th
byte inverted, so a higher index is closer to the target. -/
def c1Node (i : Nat) : List Nat :=
  c1Target.set i ((c1Target.getD i 0) ^^^ 255)

/-- The `traversal_done` events: the K closest nodes 1..8 respond (node 1's
response introduces node 8, the closest), then the farthest node 0 responds
late, after completion. -/
def c1Events : List RespEvent :=
  [⟨c1Node 1, [c1Node 8], "t1"⟩, ⟨c1Node 2, [], "t2"⟩, ⟨c1Node 3, [], "t3"⟩,
   ⟨c1Node 4, [], "t4"⟩, ⟨c1Node 5, [], "t5"⟩, ⟨c1Node 6, [], "t6"⟩,
   ⟨c1Node 7, [], "t7"⟩, ⟨c1Node 8, [], "t8"⟩, ⟨c1Node 0, [], "t0"⟩]

/-- The `traversal_done` run: seed the routing table with nodes 0..7,
branching factor 8, K = 8, then deliver all responses. -/
def c1Run : Traversal :=
  c1Events.foldl respond (startTraversal c1Target ((List.range 8).map c1Node) 8 8)

/-- The bootstrap scenario of `test_short_nodes`: a single seed node. -/
def c10Start : Traversal :=
  startTraversal c1Target [c1Node 0] 8 8

/-- The settings `test_id_enforcement` runs under: ID enforcement on. -/
def c4Settings : DhtSettings := ⟨true, true, 10⟩

/-- The sender endpoint of `test_id_enforcement`: 124.31.75.21 port 1. -/
def c4Src : Endpoint := ⟨[124, 31, 75, 21], 1⟩

/-- A table in which the incoming id [2] already exists under another
endpoint while the incoming endpoint holds id [1]. -/
def c6Table : List NodeEntry :=
  [⟨[2], ⟨[9, 9, 9, 9], 9⟩, 10, 0⟩, ⟨[1], ⟨[4, 4, 4, 4], 4⟩, 10, 0⟩]

/-- A trivial deterministic scheme used to instantiate the round-trip
theorem at a concrete input. -/
def trivScheme : SigScheme where
  sign := fun _ _ => [0]
  verify := fun _ _ s => s == [0]
  keypair := fun _ _ => True
  complete := fun _ _ _ _ => by simp
  sound := fun _ _ _ s _ h => by simpa using h

/- ## Sanity checks of the collaborator implementations -/

/-- SHA-1 reproduces the immutable-target test vector. -/
theorem sha1_vector_check : sha1 (strBytes "12:Hello World!") =
    [229, 249, 111, 111, 56, 50, 15, 15, 51, 149, 156, 180, 211, 214, 86, 69, 33, 23,
     170, 219] := by decide

/-- CRC32-C reproduces the first BEP-42 prefix byte. -/
theorem crc32c_vector_check : crc32c [0x20, 0x0f, 0x0b, 0x15] >>> 24 = 0x5f := by decide

/-- SHA-512 reproduces the empty-string digest. -/
theorem sha512_vector_check : sha512 [] = [207, 131, 225, 53, 126, 239, 184, 189, 241,
    84, 40, 80, 214, 109, 128, 7, 214, 32, 228, 5, 11, 87, 21, 220, 131, 244, 169, 33,
    211, 108, 233, 206, 71, 208, 209, 60, 93, 133, 242, 176, 255, 131, 24, 210, 135,
    126, 236, 47, 99, 185, 49, 189, 71, 65, 122, 129, 165, 56, 50, 122, 249, 39, 218,
    62] := by decide

/-- The curve arithmetic maps the test secret scalar to the test public
key. -/
theorem ed25519_pubkey_check :
    encodePoint (scalarMul (bytesToNatLE (testSk.take 32)) basePoint) = testPk := by
  decide

/-- The BEP-42 check accepts the valid test ID and rejects the broken
one. -/
theorem verify_id_vector_check :
    verify_id testNid [124, 31, 75, 21] = true ∧
    verify_id testNidBad [124, 31, 75, 21] = false := by
  constructor <;> decide

/- ## Claim theorems -/

/-- C8: the mutable-item target equals SHA-1(public_key ‖ salt), the
immutable-item target equals SHA-1 of the bencoded value, and for the
BEP-44 test keypair with value `12:Hello World!`, empty salt and seq 1 the
mutable target is 4a533d47ec9c7d95b1ad75f576cffc641853b750, the signature
is 305ac8ae…7ae21f01, and the immutable target of the same value is
e5f96f6f38320f0f33959cb4d3d656452117aadb. -/
theorem target_id_determinism_and_bep44_vector :
    (∀ salt pk : List Nat, item_target_id_mutable salt pk = sha1 (pk ++ salt)) ∧
    (∀ v : List Nat, item_target_id v = sha1 v) ∧
    item_target_id_mutable [] testPk =
      [74, 83, 61, 71, 236, 156, 125, 149, 177, 173, 117, 245, 118, 207, 252, 100, 24,
       83, 183, 80] ∧
    sign_mutable_item_ed25519 (strBytes "12:Hello World!") [] 1 testPk testSk =
      [48, 90, 200, 174, 182, 201, 193, 81, 250, 18, 15, 18, 14, 162, 207, 185, 35, 86,
       78, 17, 85, 45, 6, 165, 216, 86, 9, 30, 94, 133, 60, 255, 18, 96, 211, 243, 158,
       73, 153, 104, 74, 169, 46, 183, 63, 253, 19, 110, 111, 79, 62, 203, 253, 160,
       206, 83, 161, 96, 142, 205, 122, 226, 31, 1] ∧
    item_target_id (strBytes "12:Hello World!") =
      [229, 249, 111, 111, 56, 50, 15, 15, 51, 149, 156, 180, 211, 214, 86, 69, 33, 23,
       170, 219] :=
  ⟨fun _ _ => rfl, fun _ => rfl, by decide, by decide, by decide⟩

/-- Helper: the last element of the derived ID list is the nonce byte. -/
theorem getLast_cons3_append (a b c r : Nat) (m : List Nat) :
    (a :: b :: c :: (m ++ [r])).getLast? = some r := by
  have h : a :: b :: c :: (m ++ [r]) = (a :: b :: c :: m) ++ [r] := by simp
  rw [h, List.getLast?_concat]

/-- C9: the node ID derived from 124.31.75.21 with nonce 1 matches
5f bf bf in its first 21 bits and has last byte 0x01, and the ID derived
from 21.75.31.124 with nonce 86 matches 5a 3c e9 in its first 21 bits and
has last byte 0x56; when the internal random low bits come out right the
first three bytes are literally 5f bf bf resp. 5a 3c e9 (the binding
covers the first 21 bits and the last byte). -/
theorem bep42_derivation_vectors (rand3 : Nat) (mid : List Nat) (h8 : rand3 < 8) :
    ((generate_id_impl [124, 31, 75, 21] 1 rand3 mid).take 2 = [0x5f, 0xbf] ∧
     ((generate_id_impl [124, 31, 75, 21] 1 rand3 mid).getD 2 0) &&& 0xf8 = 0xb8 ∧
     (generate_id_impl [124, 31, 75, 21] 1 rand3 mid).getLast? = some 0x01) ∧
    ((generate_id_impl [21, 75, 31, 124] 86 rand3 mid).take 2 = [0x5a, 0x3c] ∧
     ((generate_id_impl [21, 75, 31, 124] 86 rand3 mid).getD 2 0) &&& 0xf8 = 0xe8 ∧
     (generate_id_impl [21, 75, 31, 124] 86 rand3 mid).getLast? = some 0x56) ∧
    (generate_id_impl [124, 31, 75, 21] 1 7 mid).take 3 = [0x5f, 0xbf, 0xbf] ∧
    (generate_id_impl [21, 75, 31, 124] 86 1 mid).take 3 = [0x5a, 0x3c, 0xe9] := by
  have h1 : generate_id_impl [124, 31, 75, 21] 1 rand3 mid
      = 0x5f :: 0xbf :: ((0xb8 ||| (rand3 &&& 7)) :: (mid ++ [1])) := rfl
  have h2 : generate_id_impl [21, 75, 31, 124] 86 rand3 mid
      = 0x5a :: 0x3c :: ((0xe8 ||| (rand3 &&& 7)) :: (mid ++ [86])) := rfl
  refine ⟨⟨?_, ?_, ?_⟩, ⟨?_, ?_, ?_⟩, rfl, rfl⟩
  · rfl
  · rw [h1]
    simp only [List.getD_cons_succ, List.getD_cons_zero]
    interval_cases rand3 <;> decide
  · rw [h1]; exact getLast_cons3_append ..
  · rfl
  · rw [h2]
    simp only [List.getD_cons_succ, List.getD_cons_zero]
    interval_cases rand3 <;> decide
  · rw [h2]; exact getLast_cons3_append ..

/-- Witness for the BEP-42 vector theorem at concrete random bytes. -/
theorem bep42_derivation_vectors_witness :
    (3 < 8 ∧
      (generate_id_impl [124, 31, 75, 21] 1 3 (List.replicate 16 0)).take 2 =
        [0x5f, 0xbf]) := by
  have h := bep42_derivation_vectors 3 (List.replicate 16 0) (by decide)
  exact ⟨by decide, h.1.1⟩

/-- C4: with enforcement on, a query from 124.31.75.21:1 whose sender ID
has first byte 0x18 is answered with error 203 "invalid node ID" and
leaves any routing table unchanged; the BEP-42-valid ID with first byte
0x5f gets a response and the (empty) routing table grows by exactly 1. -/
theorem id_enforcement_reject_and_accept :
    (∀ t : List NodeEntry,
      handle_query c4Settings t testNidBad c4Src 10 = (.err 203 "invalid node ID", t)) ∧
    (handle_query c4Settings [] testNid c4Src 10).1 = .response ∧
    (handle_query c4Settings [] testNid c4Src 10).2.length = 1 :=
  ⟨fun _ => rfl, by decide, by decide⟩

/-- C2: against a stored mutable item, a put with a valid token, a
signature the verifier accepts, a higher seq and cas equal to the stored
seq succeeds and stores the new item; the identical put repeated against
the advanced store is rejected with error 301 "CAS mismatch" and leaves
the stored item unchanged. -/
theorem cas_put_succeeds_then_301 (verifySig : List Nat → List Nat → List Nat → Bool)
    (tok : String) (it : MutableItem) (a : PutArgs)
    (htok : a.token = tok)
    (hsig : verifySig (canonicalString a.salt a.seq a.value) a.key a.sig = true)
    (hseq : it.seq < a.seq) (hcas : a.cas = some it.seq) :
    handle_put verifySig tok (some it) a =
      (.response, some ⟨a.value, a.key, a.sig, a.seq, a.salt⟩) ∧
    handle_put verifySig tok (some ⟨a.value, a.key, a.sig, a.seq, a.salt⟩) a =
      (.err 301 "CAS mismatch", some ⟨a.value, a.key, a.sig, a.seq, a.salt⟩) := by
  have hne : it.seq ≠ a.seq := Nat.ne_of_lt hseq
  constructor
  · simp [handle_put, htok, hsig, hcas, Nat.not_lt.2 (Nat.le_of_lt hseq)]
  · simp [handle_put, htok, hsig, hcas, hne]

/-- Witness for the CAS theorem at a concrete store and message. -/
theorem cas_put_succeeds_then_301_witness :
    handle_put (fun _ _ _ => true) "tk" (some ⟨[1], [2], [3], 4, []⟩)
        ⟨"tk", [9], [2], [7], 5, some 4, []⟩ =
      (.response, some ⟨[9], [2], [7], 5, []⟩) ∧
    handle_put (fun _ _ _ => true) "tk" (some ⟨[9], [2], [7], 5, []⟩)
        ⟨"tk", [9], [2], [7], 5, some 4, []⟩ =
      (.err 301 "CAS mismatch", some ⟨[9], [2], [7], 5, []⟩) :=
  cas_put_succeeds_then_301 (fun _ _ _ => true) "tk" ⟨[1], [2], [3], 4, []⟩
    ⟨"tk", [9], [2], [7], 5, some 4, []⟩ rfl rfl (by decide) rfl

/-- C3: a get for the target of a stored mutable item with sequence number
S that supplies a sequence number s returns the full item (v, k, sig)
exactly when S > s; when S ≤ s the v, k and sig keys are omitted and only
the routing material (token, nodes) is returned. -/
theorem conditional_get_iff (it : MutableItem) (s : Nat) (tok : String)
    (nodes : List NodeEntry) :
    (s < it.seq →
      handle_get (some it) (some s) tok nodes =
        ⟨some it.value, some it.key, some it.sig, some it.seq, tok, nodes⟩) ∧
    (it.seq ≤ s →
      handle_get (some it) (some s) tok nodes = ⟨none, none, none, none, tok, nodes⟩) ∧
    (((handle_get (some it) (some s) tok nodes).v.isSome ∧
      (handle_get (some it) (some s) tok nodes).k.isSome ∧
      (handle_get (some it) (some s) tok nodes).sig.isSome) ↔ s < it.seq) := by
  refine ⟨fun h => ?_, fun h => ?_, ?_⟩
  · simp [handle_get, Nat.not_le.2 h]
  · simp [handle_get, h]
  · by_cases h : s < it.seq
    · simp [handle_get, Nat.not_le.2 h, h]
    · simp [handle_get, Nat.le_of_not_lt h, h]

/-- Witness for the conditional-get theorem at a concrete item, in both
the newer-than-requested and the not-newer cases. -/
theorem conditional_get_iff_witness :
    handle_get (some ⟨[1], [2], [3], 5, []⟩) (some 4) "tk" [] =
      ⟨some [1], some [2], some [3], some 5, "tk", []⟩ ∧
    handle_get (some ⟨[1], [2], [3], 5, []⟩) (some 5) "tk" [] =
      ⟨none, none, none, none, "tk", []⟩ :=
  ⟨(conditional_get_iff ⟨[1], [2], [3], 5, []⟩ 4 "tk" []).1 (by decide),
   (conditional_get_iff ⟨[1], [2], [3], 5, []⟩ 5 "tk" []).2.1 (by decide)⟩

/-- Helper: in a table with pairwise-distinct ids, searching for a member's
id finds exactly that member. -/
theorem find_by_id_of_mem (t : List NodeEntry) (e : NodeEntry)
    (he : e ∈ t) (hu : t.Pairwise (fun a b => a.id ≠ b.id)) :
    t.find? (fun x => x.id == e.id) = some e := by
  induction t with
  | nil => cases he
  | cons hd tl ih =>
    rcases List.mem_cons.1 he with rfl | htl
    · exact List.find?_cons_of_pos _ (by simp)
    · have hne : hd.id ≠ e.id := (List.pairwise_cons.1 hu).1 e htl
      rw [List.find?_cons_of_neg _ (by simpa using hne)]
      exact ih htl (List.pairwise_cons.1 hu).2

/-- C5: when an id is already present under endpoint `ep1`, observing the
same id at any other endpoint leaves the table literally unchanged — every
entry keeps its endpoint and port and the table size is the same — and the
call reports the `ignored` status. -/
theorem node_seen_no_hijack (s : DhtSettings) (t : List NodeEntry) (e : NodeEntry)
    (ep2 : Endpoint) (rtt : Nat)
    (henf : s.enforceNodeId = false)
    (hu : t.Pairwise (fun a b => a.id ≠ b.id))
    (he : e ∈ t) (hne : ep2 ≠ e.ep) :
    node_seen s t e.id ep2 rtt = (t, .ignored) := by
  unfold node_seen
  rw [henf]
  simp only [Bool.false_and, Bool.false_eq_true, if_false]
  rw [find_by_id_of_mem t e he hu]
  simp only
  rw [if_neg (by simpa using fun h => hne h.symm)]

/-- Witness for the no-hijack theorem at a concrete one-entry table. -/
theorem node_seen_no_hijack_witness :
    node_seen ⟨false, true, 10⟩ [⟨[1], ⟨[4, 4, 4, 4], 4⟩, 10, 0⟩] [1] ⟨[4, 4, 4, 4], 5⟩ 10
      = ([⟨[1], ⟨[4, 4, 4, 4], 4⟩, 10, 0⟩], .ignored) :=
  node_seen_no_hijack ⟨false, true, 10⟩ [⟨[1], ⟨[4, 4, 4, 4], 4⟩, 10, 0⟩]
    ⟨[1], ⟨[4, 4, 4, 4], 4⟩, 10, 0⟩ ⟨[4, 4, 4, 4], 5⟩ 10 rfl (by simp) (by simp)
    (by decide)

/-- C6 counterexample: with id [1] stored at 4.4.4.4:4, the call
`node_seen([2], 4.4.4.4:4)` does not remove that entry when [2] already
exists in the table under another endpoint — the no-hijack rule (spec
section 4.1 step 3) fires first and the call is ignored, so the old entry
is still present afterwards. -/
theorem node_seen_id_change_cex :
    node_seen ⟨false, true, 10⟩ c6Table [2] ⟨[4, 4, 4, 4], 4⟩ 10 = (c6Table, .ignored) ∧
    (⟨[1], ⟨[4, 4, 4, 4], 4⟩, 10, 0⟩ : NodeEntry) ∈
      (node_seen ⟨false, true, 10⟩ c6Table [2] ⟨[4, 4, 4, 4], 4⟩ 10).1 := by
  constructor <;> decide

/-- C6 (amended): when the table holds `(id1, ep)` and the incoming id
`id2 ≠ id1` does not occur anywhere in the table, `node_seen(id2, ep)`
removes the old entry — afterwards no entry carries id1 at ep. -/
theorem node_seen_id_change_evicts (s : DhtSettings) (t : List NodeEntry)
    (e : NodeEntry) (id2 : List Nat) (rtt : Nat)
    (henf : s.enforceNodeId = false)
    (he : e ∈ t) (hne : id2 ≠ e.id)
    (hfresh : ∀ x ∈ t, x.id ≠ id2) :
    ∀ x ∈ (node_seen s t id2 e.ep rtt).1, ¬(x.id = e.id ∧ x.ep = e.ep) := by
  unfold node_seen
  rw [henf]
  simp only [Bool.false_and, Bool.false_eq_true, if_false]
  rw [List.find?_eq_none.2 (by simpa using fun x hx => hfresh x hx)]
  simp only
  intro x hx hcontra
  have hmem_filter : ∀ y ∈ t.filter (fun y => !(y.ep == e.ep)), ¬(y.id = e.id ∧ y.ep = e.ep) := by
    intro y hy
    have := (List.mem_filter.1 hy).2
    simp at this
    exact fun hc => this hc.2
  split at hx
  · exact hmem_filter x hx hcontra
  · split at hx
    · rcases List.mem_append.1 hx with hx1 | hx1
      · exact hmem_filter x hx1 hcontra
      · have : x = ⟨id2, e.ep, rtt, 0⟩ := by simpa using hx1
        exact hne (by rw [← hcontra.1, this])
    · exact hmem_filter x hx hcontra

/-- Witness for the amended ID-change theorem at a concrete table: after
`node_seen([2], 4.4.4.4:4)` on the one-entry table holding ([1], 4.4.4.4:4),
the surviving entry (the freshly inserted one) does not carry the old id at
that endpoint. -/
theorem node_seen_id_change_evicts_witness :
    ¬((⟨[2], ⟨[4, 4, 4, 4], 4⟩, 10, 0⟩ : NodeEntry).id = [1] ∧
      (⟨[2], ⟨[4, 4, 4, 4], 4⟩, 10, 0⟩ : NodeEntry).ep = ⟨[4, 4, 4, 4], 4⟩) :=
  node_seen_id_change_evicts ⟨false, true, 10⟩ [⟨[1], ⟨[4, 4, 4, 4], 4⟩, 10, 0⟩]
    ⟨[1], ⟨[4, 4, 4, 4], 4⟩, 10, 0⟩ [2] 10 rfl (by simp) (by decide) (by decide)
    ⟨[2], ⟨[4, 4, 4, 4], 4⟩, 10, 0⟩ (by decide)

/-- Helper: flipping a bit of a byte within range changes the byte string. -/
theorem flipBit_ne (bs : List Nat) (i b : Nat) (hi : i < bs.length) :
    flipBit bs i b ≠ bs := by
  intro h
  have hset : (bs.set i ((bs.getD i 0) ^^^ (1 <<< b)))[i]? = some ((bs.getD i 0) ^^^ (1 <<< b)) :=
    List.getElem?_set_eq_of_lt _ hi
  rw [flipBit] at h
  rw [h] at hset
  have hgd : bs.getD i 0 = (bs.getD i 0) ^^^ (1 <<< b) := by
    have := List.getD_eq_getElem?_getD bs i 0
    rw [hset] at this
    simpa using this
  have hzero : (1 <<< b) = 0 := by
    have h2 : (bs.getD i 0) ^^^ (1 <<< b) ^^^ (bs.getD i 0) = bs.getD i 0 ^^^ (bs.getD i 0) := by
      rw [← hgd]
    rwa [Nat.xor_comm (bs.getD i 0) (1 <<< b), Nat.xor_cancel_right, Nat.xor_self] at h2
  have : (0 : Nat) < 1 <<< b := by
    rw [Nat.one_shiftLeft]
    exact Nat.pos_pow_of_pos b (by decide)
  omega

/-- C7: for every value, salt, sequence number and keypair of the
signature scheme, verifying the signature produced by `sign_mutable_item`
over the same data succeeds, and flipping any bit of any byte of that
signature makes `verify_mutable_item` fail. -/
theorem sign_verify_roundtrip_and_flip (S : SigScheme) (v salt pk sk : List Nat)
    (seq : Nat) (hk : S.keypair pk sk) :
    verify_mutable_item S v salt seq pk (sign_mutable_item S v salt seq sk) = true ∧
    ∀ i b, i < (sign_mutable_item S v salt seq sk).length →
      verify_mutable_item S v salt seq pk
        (flipBit (sign_mutable_item S v salt seq sk) i b) = false := by
  constructor
  · exact S.complete _ pk sk hk
  · intro i b hi
    by_contra hne
    have htrue : verify_mutable_item S v salt seq pk
        (flipBit (sign_mutable_item S v salt seq sk) i b) = true := by
      cases hv : verify_mutable_item S v salt seq pk
          (flipBit (sign_mutable_item S v salt seq sk) i b)
      · exact absurd hv hne
      · rfl
    have := S.sound _ pk sk _ hk htrue
    exact flipBit_ne _ i b hi this

/-- Witness for the round-trip theorem at a concrete scheme and input. -/
theorem sign_verify_roundtrip_and_flip_witness :
    verify_mutable_item trivScheme [1] [] 0 [] (sign_mutable_item trivScheme [1] [] 0 []) = true ∧
    verify_mutable_item trivScheme [1] [] 0 []
      (flipBit (sign_mutable_item trivScheme [1] [] 0 []) 0 3) = false :=
  ⟨(sign_verify_roundtrip_and_flip trivScheme [1] [] [] [] 0 trivial).1,
   (sign_verify_roundtrip_and_flip trivScheme [1] [] [] [] 0 trivial).2 0 3 (by decide)⟩

/-- Helper: merging nodes never touches the completion counter. -/
theorem mergeNodes_doneCount (ns : List (List Nat)) (st : Traversal) :
    (mergeNodes st ns).doneCount = st.doneCount := by
  induction ns generalizing st with
  | nil => rfl
  | cons n ns ih =>
    show (mergeNodes (if st.cands.any (fun c => c.id == n) then st
      else { st with cands := st.cands ++ [⟨n, xorDistance st.target n, .fresh, none⟩] })
        ns).doneCount = st.doneCount
    rw [ih]
    split <;> rfl

/-- Helper: issuing queries never touches the completion counter. -/
theorem addRequestsAux_doneCount (fuel : Nat) (st : Traversal) :
    (addRequestsAux fuel st).doneCount = st.doneCount := by
  induction fuel generalizing st with
  | zero => rfl
  | succ f ih =>
    rw [addRequestsAux]
    cases hq : nextQuery st with
    | none => rfl
    | some id => simp only [ih]

/-- Helper: `addRequests` never touches the completion counter. -/
theorem addRequests_doneCount (st : Traversal) :
    (addRequests st).doneCount = st.doneCount :=
  addRequestsAux_doneCount _ st

/-- Helper: a single termination check dispatches completion at most once. -/
theorem checkDone_doneCount_le (st : Traversal) :
    (checkDone st).doneCount ≤ st.doneCount + 1 := by
  rw [checkDone]
  split
  · exact Nat.le_refl _
  · exact Nat.le_succ _

/-- Helper: a completed traversal ignores any further response. -/
theorem respond_terminal (st : Traversal) (e : RespEvent) (h : 0 < st.doneCount) :
    respond st e = st := by
  simp [respond, h]

/-- Helper: a completed traversal ignores any sequence of further
responses. -/
theorem foldl_respond_terminal (l : List RespEvent) (st : Traversal)
    (h : 0 < st.doneCount) :
    l.foldl respond st = st := by
  induction l with
  | nil => rfl
  | cons e l ih => rw [List.foldl_cons, respond_terminal st e h]; exact ih

/-- Helper: response processing never pushes the completion counter past
one. -/
theorem respond_doneCount_le (st : Traversal) (e : RespEvent)
    (h : st.doneCount ≤ 1) : (respond st e).doneCount ≤ 1 := by
  rw [respond]
  split
  · exact h
  · rename_i hn
    have h0 : st.doneCount = 0 := by omega
    rw [respondActive]
    cases hf : st.cands.find? (fun c => c.id == e.rid) with
    | none => simp [h0]
    | some c =>
      simp only
      split
      · refine Nat.le_trans (checkDone_doneCount_le _) ?_
        rw [addRequests_doneCount, mergeNodes_doneCount]
        show st.doneCount + 1 ≤ 1
        omega
      · omega

/-- C1: in the `traversal_done` regression scenario — a `put_item`
traversal over K+1 nodes where the K closest respond first and the
farthest node's response arrives only after completion — the done
dispatch fires exactly once: the data callback runs once and exactly K=8
follow-up put requests are sent; any further responses leave the
traversal unchanged, and in general response processing can never push
the completion count past one. -/
theorem put_traversal_done_exactly_once :
    c1Run.doneCount = 1 ∧ c1Run.dataCbCount = 1 ∧ c1Run.putsSent = 8 ∧
    (∀ evts : List RespEvent, evts.foldl respond c1Run = c1Run) ∧
    (∀ (st : Traversal) (e : RespEvent),
      st.doneCount ≤ 1 → (respond st e).doneCount ≤ 1) := by
  have h1 : c1Run.doneCount = 1 := by decide
  exact ⟨h1, by decide, by decide,
    fun evts => foldl_respond_terminal evts c1Run (by omega),
    fun st e h => respond_doneCount_le st e h⟩

/-- Witness for the exactly-once theorem: the invariant applied to the
completed scenario state and a fresh event. -/
theorem put_traversal_done_exactly_once_witness :
    (respond c1Run ⟨[], [], ""⟩).doneCount ≤ 1 := by
  have h := put_traversal_done_exactly_once
  exact h.2.2.2.2 c1Run ⟨[], [], ""⟩ (Nat.le_of_eq h.1)

/-- C10: a compact `nodes` (or `nodes6`) byte string whose length is not a
multiple of the element size parses to nothing, and in the bootstrap
scenario of `test_short_nodes` a find_node response carrying such a
truncated v4 payload causes no endpoint from it to be contacted — the set
of queried nodes after the response equals the set before. -/
theorem short_nodes_response_ignored (sz : Nat) (bs : List Nat)
    (h : bs.length % sz ≠ 0) :
    parse_nodes sz bs = none ∧
    (sz = 26 → (respondRaw c10Start (c1Node 0) bs "t").sentGets = c10Start.sentGets) := by
  have hp : parse_nodes sz bs = none := by simp [parse_nodes, h]
  refine ⟨hp, fun h26 => ?_⟩
  subst h26
  rw [respondRaw, hp]
  decide

/-- Witness for the short-nodes theorem at a 1-byte (length 1 mod 26)
payload. -/
theorem short_nodes_response_ignored_witness :
    parse_nodes 26 [0] = none ∧
    (respondRaw c10Start (c1Node 0) [0] "t").sentGets = c10Start.sentGets :=
  ⟨(short_nodes_response_ignored 26 [0] (by decide)).1,
   (short_nodes_response_ignored 26 [0] (by decide)).2 rfl⟩
